import Mathlib

/-!
Verification development for the batch-FFT benchmarking harness.

The development shallowly embeds the GPU resource-lifecycle layer
(src/rust-cuda/src/cuda_ffi.rs, src/rust-cuda/src/cufft_ffi.rs), the GPU
benchmark driver (src/rust-cuda/src/main.rs) and the CPU comparison path
(src/src/main.rs).  Foreign calls are modelled by an oracle: each wrapper
takes, as explicit arguments, the status code the foreign call would return
and the values the foreign call would write through its output pointers,
and returns the list of foreign calls it issued together with its outcome.
-/

namespace BatchFFT

/-! ## Status code model (cuda_ffi.rs lines 5 to 27, cufft_ffi.rs lines 10 to 43) -/

/-- The cudaError_t enum from cuda_ffi.rs: cudaSuccess = 0,
cudaErrorInvalidValue = 1, cudaErrorMemoryAllocation = 2. -/
inductive cudaError_t where
  | cudaSuccess
  | cudaErrorInvalidValue
  | cudaErrorMemoryAllocation
deriving DecidableEq, Repr

/-- Raw integer discriminant of a cudaError_t value (repr C). -/
def cudaError_t.toRaw : cudaError_t → Int
  | .cudaSuccess => 0
  | .cudaErrorInvalidValue => 1
  | .cudaErrorMemoryAllocation => 2

/-- The Display impl for cudaError_t (cuda_ffi.rs lines 15 to 24).  The match
names each known discriminant; the derived Debug rendering used by the drop
warnings prints the same variant names. -/
def cudaError_t.display : cudaError_t → String
  | .cudaSuccess => "cudaSuccess"
  | .cudaErrorInvalidValue => "cudaErrorInvalidValue"
  | .cudaErrorMemoryAllocation => "cudaErrorMemoryAllocation"

/-- The Display match of cuda_ffi.rs lines 17 to 22 read at the raw
representation level: the three named arms, then the wildcard arm
rendering the raw code numerically as cudaError(code). -/
def cudaErrorDisplayRaw (c : Int) : String :=
  if c = 0 then "cudaSuccess"
  else if c = 1 then "cudaErrorInvalidValue"
  else if c = 2 then "cudaErrorMemoryAllocation"
  else "cudaError(" ++ toString c ++ ")"

/-- The cufftResult enum from cufft_ffi.rs lines 13 to 24. -/
inductive cufftResult where
  | CUFFT_SUCCESS
  | CUFFT_INVALID_PLAN
  | CUFFT_ALLOC_FAILED
  | CUFFT_INVALID_TYPE
  | CUFFT_INVALID_VALUE
  | CUFFT_INTERNAL_ERROR
  | CUFFT_EXEC_FAILED
  | CUFFT_SETUP_FAILED
  | CUFFT_INVALID_SIZE
  | CUFFT_UNALIGNED_DATA
deriving DecidableEq, Repr

/-- Raw integer discriminant of a cufftResult value (repr C). -/
def cufftResult.toRaw : cufftResult → Int
  | .CUFFT_SUCCESS => 0
  | .CUFFT_INVALID_PLAN => 1
  | .CUFFT_ALLOC_FAILED => 2
  | .CUFFT_INVALID_TYPE => 3
  | .CUFFT_INVALID_VALUE => 4
  | .CUFFT_INTERNAL_ERROR => 5
  | .CUFFT_EXEC_FAILED => 6
  | .CUFFT_SETUP_FAILED => 7
  | .CUFFT_INVALID_SIZE => 8
  | .CUFFT_UNALIGNED_DATA => 9

/-- The Display impl for cufftResult (cufft_ffi.rs lines 26 to 41).  The
match is exhaustive over the ten declared discriminants and has no
wildcard arm. -/
def cufftResult.display : cufftResult → String
  | .CUFFT_SUCCESS => "CUFFT_SUCCESS"
  | .CUFFT_INVALID_PLAN => "CUFFT_INVALID_PLAN"
  | .CUFFT_ALLOC_FAILED => "CUFFT_ALLOC_FAILED"
  | .CUFFT_INVALID_TYPE => "CUFFT_INVALID_TYPE"
  | .CUFFT_INVALID_VALUE => "CUFFT_INVALID_VALUE"
  | .CUFFT_INTERNAL_ERROR => "CUFFT_INTERNAL_ERROR"
  | .CUFFT_EXEC_FAILED => "CUFFT_EXEC_FAILED"
  | .CUFFT_SETUP_FAILED => "CUFFT_SETUP_FAILED"
  | .CUFFT_INVALID_SIZE => "CUFFT_INVALID_SIZE"
  | .CUFFT_UNALIGNED_DATA => "CUFFT_UNALIGNED_DATA"

/-- The cufftResult Display match read at the raw representation level.
Every arm matches one declared discriminant; a raw code outside the set
0 to 9 hits no arm, so it has no rendering (modelled as none). -/
def cufftResultDisplayRaw (c : Int) : Option String :=
  if c = 0 then some "CUFFT_SUCCESS"
  else if c = 1 then some "CUFFT_INVALID_PLAN"
  else if c = 2 then some "CUFFT_ALLOC_FAILED"
  else if c = 3 then some "CUFFT_INVALID_TYPE"
  else if c = 4 then some "CUFFT_INVALID_VALUE"
  else if c = 5 then some "CUFFT_INTERNAL_ERROR"
  else if c = 6 then some "CUFFT_EXEC_FAILED"
  else if c = 7 then some "CUFFT_SETUP_FAILED"
  else if c = 8 then some "CUFFT_INVALID_SIZE"
  else if c = 9 then some "CUFFT_UNALIGNED_DATA"
  else none

/-! ## Foreign calls, outcomes -/

/-- Truncating cast from usize to i32, as performed by the Rust expression
length as i32: keep the low 32 bits and reinterpret them as signed. -/
def i32cast (n : Nat) : Int :=
  if n % 2 ^ 32 < 2 ^ 31 then ((n % 2 ^ 32 : Nat) : Int)
  else ((n % 2 ^ 32 : Nat) : Int) - 2 ^ 32

/-- The cufftType enum (cufft_ffi.rs lines 46 to 50). -/
inductive cufftType where
  | CUFFT_C2C
deriving DecidableEq, Repr

/-- The full argument record of a cufftPlanMany foreign call
(cufft_ffi.rs lines 58 to 70).  Null embed pointers are modelled as none. -/
structure PlanManyArgs where
  rank : Int
  n : List Int
  inembed : Option (List Int)
  istride : Int
  idist : Int
  onembed : Option (List Int)
  ostride : Int
  odist : Int
  ttype : cufftType
  batch : Int
deriving DecidableEq, Repr

/-- One foreign call issued by a wrapper, with the arguments that matter
to the specification.  Memory sizes are in bytes, as passed to the
foreign layer; events are identified by their handle value. -/
inductive FFICall where
  | cudaMalloc (bytes : Nat)
  | cudaFree
  | cudaMemcpyH2D (bytes : Nat)
  | cudaDeviceSync
  | cudaEventCreate
  | cudaEventRecord (event : Nat)
  | cudaEventSync (event : Nat)
  | cudaEventElapsed (startEv stopEv : Nat)
  | cudaEventDestroy
  | cufftPlanMany (args : PlanManyArgs)
  | cufftExec
  | cufftDestroy
deriving DecidableEq, Repr

/-- Outcome of a Rust function: a returned value, a returned error, or a
panic (which in this program unwinds out of main and terminates the
process). -/
inductive POutcome (ε α : Type) where
  | ok (a : α)
  | err (e : ε)
  | panicked (msg : String)
deriving DecidableEq, Repr

/-- True iff the outcome is a returned value. -/
def POutcome.isOk {ε α : Type} : POutcome ε α → Bool
  | .ok _ => true
  | _ => false

/-- Result of running a wrapper operation: the foreign calls it issued, in
order, and its outcome. -/
structure ResE (ε α : Type) where
  calls : List FFICall
  result : POutcome ε α
deriving DecidableEq, Repr

/-! ## Device buffer wrapper (cuda_ffi.rs lines 66 to 127)

A CudaBuffer of element type T is tracked by its raw pointer and element
count; element size in bytes is passed explicitly where the source uses
size_of of T. -/

/-- The CudaBuffer fields, cuda_ffi.rs lines 67 to 70. -/
structure CudaBuffer where
  ptr : Nat
  len : Nat
deriving DecidableEq, Repr

/-- CudaBuffer.alloc (cuda_ffi.rs lines 73 to 88): issue cudaMalloc for
len times element-size bytes; a non-success status is returned as the
error before the written pointer is used; on success the buffer owns the
written pointer.  ptrOut is the value cudaMalloc writes through its
output pointer, st the status it returns. -/
def CudaBuffer.alloc (len elemSize : Nat) (st : cudaError_t) (ptrOut : Nat) :
    ResE cudaError_t CudaBuffer :=
  { calls := [.cudaMalloc (len * elemSize)],
    result := if st ≠ .cudaSuccess then .err st else .ok { ptr := ptrOut, len := len } }

/-- CudaBuffer.copy_from_host (cuda_ffi.rs lines 90 to 107): first the
assertion that the host slice length equals the buffer length (a failed
assert-eq panics with the message Size mismatch before any foreign call);
then cudaMemcpy host-to-device, whose non-success status is returned as
the error. -/
def CudaBuffer.copy_from_host (bufLen hostLen elemSize : Nat) (st : cudaError_t) :
    ResE cudaError_t Unit :=
  if hostLen ≠ bufLen then { calls := [], result := .panicked "Size mismatch" }
  else if st ≠ .cudaSuccess then
    { calls := [.cudaMemcpyH2D (bufLen * elemSize)], result := .err st }
  else
    { calls := [.cudaMemcpyH2D (bufLen * elemSize)], result := .ok () }

/-- Drop for CudaBuffer (cuda_ffi.rs lines 118 to 127): one cudaFree call;
a non-success status is reported by an eprintln warning (Debug rendering
of the status, which prints the variant name) and nothing is propagated.
The warnings field records the eprintln output; the outcome type still
admits err and panicked, so the ok outcome states that the drop neither
returns an error nor panics. -/
def CudaBuffer.drop (st : cudaError_t) :
    List FFICall × List String × POutcome String Unit :=
  ([.cudaFree],
   (if st ≠ .cudaSuccess then ["Warning: cudaFree failed: " ++ st.display] else []),
   .ok ())

/-! ## Timing event wrapper (cuda_ffi.rs lines 129 to 191) -/

/-- The CudaEvent fields, cuda_ffi.rs lines 130 to 132. -/
structure CudaEvent where
  event : Nat
deriving DecidableEq, Repr

/-- CudaEvent.create (cuda_ffi.rs lines 135 to 146): cudaEventCreate, with
the handle written through the output pointer used only on success. -/
def CudaEvent.create (st : cudaError_t) (handleOut : Nat) : ResE cudaError_t CudaEvent :=
  { calls := [.cudaEventCreate],
    result := if st ≠ .cudaSuccess then .err st else .ok { event := handleOut } }

/-- CudaEvent.record (cuda_ffi.rs lines 148 to 156): cudaEventRecord on the
default stream; non-success is returned as the error. -/
def CudaEvent.record (ev : CudaEvent) (st : cudaError_t) : ResE cudaError_t Unit :=
  { calls := [.cudaEventRecord ev.event],
    result := if st ≠ .cudaSuccess then .err st else .ok () }

/-- CudaEvent.synchronize (cuda_ffi.rs lines 158 to 166). -/
def CudaEvent.synchronize (ev : CudaEvent) (st : cudaError_t) : ResE cudaError_t Unit :=
  { calls := [.cudaEventSync ev.event],
    result := if st ≠ .cudaSuccess then .err st else .ok () }

/-- CudaEvent.elapsed_time (cuda_ffi.rs lines 168 to 179): one
cudaEventElapsedTime call; the milliseconds value written through the
output pointer (msOut, of an arbitrary type standing for f32) is read and
returned only when the status is success. -/
def CudaEvent.elapsed_time {μ : Type} (ev stop : CudaEvent) (st : cudaError_t)
    (msOut : μ) : ResE cudaError_t μ :=
  { calls := [.cudaEventElapsed ev.event stop.event],
    result := if st ≠ .cudaSuccess then .err st else .ok msOut }

/-- Drop for CudaEvent (cuda_ffi.rs lines 182 to 191): one cudaEventDestroy
call, warning on non-success, nothing propagated. -/
def CudaEvent.drop (st : cudaError_t) :
    List FFICall × List String × POutcome String Unit :=
  ([.cudaEventDestroy],
   (if st ≠ .cudaSuccess then ["Warning: cudaEventDestroy failed: " ++ st.display] else []),
   .ok ())

/-- cuda_device_synchronize (cuda_ffi.rs lines 194 to 202). -/
def cuda_device_synchronize (st : cudaError_t) : ResE cudaError_t Unit :=
  { calls := [.cudaDeviceSync],
    result := if st ≠ .cudaSuccess then .err st else .ok () }

/-! ## Batch transform plan wrapper (cufft_ffi.rs lines 82 to 144) -/

/-- The CufftPlan fields, cufft_ffi.rs lines 83 to 85: only the handle is
stored; the construction parameters are not retained. -/
structure CufftPlan where
  handle : Int
deriving DecidableEq, Repr

/-- The exact argument record CufftPlan.new_batch_1d passes to
cufftPlanMany (cufft_ffi.rs lines 95 to 107): rank 1, n the one-element
array holding length as i32, null embed arrays, strides 1, distances
length as i32, type C2C, batch as i32. -/
def newBatch1dArgs (length batch : Nat) : PlanManyArgs :=
  { rank := 1
    n := [i32cast length]
    inembed := none
    istride := 1
    idist := i32cast length
    onembed := none
    ostride := 1
    odist := i32cast length
    ttype := .CUFFT_C2C
    batch := i32cast batch }

/-- CufftPlan.new_batch_1d (cufft_ffi.rs lines 90 to 115): one
cufftPlanMany call with the argument record above; the handle written
through the output pointer is used only on success. -/
def CufftPlan.new_batch_1d (length batch : Nat) (st : cufftResult) (handleOut : Int) :
    ResE cufftResult CufftPlan :=
  { calls := [.cufftPlanMany (newBatch1dArgs length batch)],
    result := if st ≠ .CUFFT_SUCCESS then .err st else .ok { handle := handleOut } }

/-- CufftPlan.execute_forward (cufft_ffi.rs lines 118 to 132): cufftExecC2C
in place in the forward direction; a non-success transform status returns
a message naming the cuFFT status and skips synchronization; otherwise
cudaDeviceSynchronize is issued, whose non-success status returns a
message naming the CUDA status.  The function receives only the raw
device pointer: the first parameter records the element count of the buffer the
pointer refers to and is never consulted by the body, because the source
has no access to it. -/
def CufftPlan.execute_forward ( _bufLen : Nat) (execSt : cufftResult)
    (syncSt : cudaError_t) : ResE String Unit :=
  if execSt ≠ .CUFFT_SUCCESS then
    { calls := [.cufftExec],
      result := .err ("cuFFT execution failed: " ++ execSt.display) }
  else if syncSt ≠ .cudaSuccess then
    { calls := [.cufftExec, .cudaDeviceSync],
      result := .err ("CUDA synchronization failed: " ++ syncSt.display) }
  else
    { calls := [.cufftExec, .cudaDeviceSync], result := .ok () }

/-- Drop for CufftPlan (cufft_ffi.rs lines 135 to 144): one cufftDestroy
call, warning on non-success, nothing propagated. -/
def CufftPlan.drop (st : cufftResult) :
    List FFICall × List String × POutcome String Unit :=
  ([.cufftDestroy],
   (if st ≠ .CUFFT_SUCCESS then ["Warning: cufftDestroy failed: " ++ st.display] else []),
   .ok ())

/-! ## GPU benchmark driver (rust-cuda/src/main.rs)

The driver composes the wrappers sequentially; the question-mark operator
converts a typed wrapper error into the boxed error returned by main,
whose message is the Display rendering of the underlying status. -/

/-- Result of a driver prefix: foreign calls issued so far and the
outcome, with errors already converted to their message strings. -/
structure DRes (α : Type) where
  calls : List FFICall
  result : POutcome String α

instance : Monad DRes where
  pure a := { calls := [], result := .ok a }
  bind x f :=
    match x.result with
    | .ok a =>
        let y := f a
        { calls := x.calls ++ y.calls, result := y.result }
    | .err e => { calls := x.calls, result := .err e }
    | .panicked m => { calls := x.calls, result := .panicked m }

/-- The question-mark conversion for a wrapper returning a cudaError_t
error: the boxed error displays as the status display string. -/
def liftCuda {α : Type} (r : ResE cudaError_t α) : DRes α :=
  { calls := r.calls,
    result :=
      match r.result with
      | .ok a => .ok a
      | .err e => .err e.display
      | .panicked m => .panicked m }

/-- The question-mark conversion for a wrapper returning a cufftResult
error. -/
def liftCufft {α : Type} (r : ResE cufftResult α) : DRes α :=
  { calls := r.calls,
    result :=
      match r.result with
      | .ok a => .ok a
      | .err e => .err e.display
      | .panicked m => .panicked m }

/-- The question-mark conversion for execute_forward, which already
returns a String error. -/
def liftStr {α : Type} (r : ResE String α) : DRes α :=
  { calls := r.calls,
    result :=
      match r.result with
      | .ok a => .ok a
      | .err e => .err e
      | .panicked m => .panicked m }

/-- Oracle for one run of the GPU driver: for each foreign call made by
main (rust-cuda/src/main.rs lines 48 to 104), the status it returns and
the value it writes through its output pointer. -/
structure DriverOracle where
  allocSt : cudaError_t
  ptrOut : Nat
  upload1St : cudaError_t
  planSt : cufftResult
  planHandle : Int
  warmExecSt : cufftResult
  warmSyncSt : cudaError_t
  upload2St : cudaError_t
  evCreate1St : cudaError_t
  ev1 : Nat
  evCreate2St : cudaError_t
  ev2 : Nat
  recStartSt : cudaError_t
  timedExecSt : cufftResult
  timedSyncSt : cudaError_t
  recStopSt : cudaError_t
  stopSyncSt : cudaError_t
  elapsedSt : cudaError_t
  elapsedMs : Nat

/-- The foreign-call sequence of main (rust-cuda/src/main.rs lines 48 to
104), through the elapsed-time computation: allocate the device buffer of
batch times length complex elements (8 bytes each), upload the generated
host data, build the plan, run the untimed warm-up, re-upload the
original host data, create the start and stop events, record start, run
the timed execution, record stop, synchronize stop, read the elapsed
time.  Input generation, the FLOP computation and the CSV printing issue
no foreign calls.  The scope-end destructor calls are modelled separately
by the per-wrapper drop functions. -/
def mainDriver (o : DriverOracle) (batch length : Nat) : DRes Unit := do
  let totalSize := batch * length
  let d_data ← liftCuda (CudaBuffer.alloc totalSize 8 o.allocSt o.ptrOut)
  let _ ← liftCuda (CudaBuffer.copy_from_host d_data.len totalSize 8 o.upload1St)
  let _plan ← liftCufft (CufftPlan.new_batch_1d length batch o.planSt o.planHandle)
  let _ ← liftStr (CufftPlan.execute_forward d_data.len o.warmExecSt o.warmSyncSt)
  let _ ← liftCuda (CudaBuffer.copy_from_host d_data.len totalSize 8 o.upload2St)
  let start ← liftCuda (CudaEvent.create o.evCreate1St o.ev1)
  let stop ← liftCuda (CudaEvent.create o.evCreate2St o.ev2)
  let _ ← liftCuda (start.record o.recStartSt)
  let _ ← liftStr (CufftPlan.execute_forward d_data.len o.timedExecSt o.timedSyncSt)
  let _ ← liftCuda (stop.record o.recStopSt)
  let _ ← liftCuda (stop.synchronize o.stopSyncSt)
  let _milliseconds ← liftCuda (CudaEvent.elapsed_time start stop o.elapsedSt o.elapsedMs)
  pure ()

/-- An oracle on which every foreign call succeeds, with the given
output-pointer values. -/
def successOracle (ptrOut : Nat) (planHandle : Int) (ev1 ev2 elapsedMs : Nat) :
    DriverOracle :=
  { allocSt := .cudaSuccess, ptrOut := ptrOut
    upload1St := .cudaSuccess
    planSt := .CUFFT_SUCCESS, planHandle := planHandle
    warmExecSt := .CUFFT_SUCCESS, warmSyncSt := .cudaSuccess
    upload2St := .cudaSuccess
    evCreate1St := .cudaSuccess, ev1 := ev1
    evCreate2St := .cudaSuccess, ev2 := ev2
    recStartSt := .cudaSuccess
    timedExecSt := .CUFFT_SUCCESS, timedSyncSt := .cudaSuccess
    recStopSt := .cudaSuccess, stopSyncSt := .cudaSuccess
    elapsedSt := .cudaSuccess, elapsedMs := elapsedMs }

/-! ## Input generation (rust-cuda/src/main.rs lines 22 to 38 and
src/main.rs lines 36 to 44)

Floating-point samples are modelled over the reals; both sources compute
the same closed-form expression (the GPU path in f64 truncated to f32,
the CPU path directly in f32). -/

/-- generate_input_data from rust-cuda/src/main.rs lines 22 to 38: a loop
over global index i pushing one sample per iteration onto a growing
vector. -/
noncomputable def generate_input_data (batch length : Nat) : List (ℝ × ℝ) :=
  (List.range (batch * length)).foldl
    (fun data i =>
      let t : ℝ := ((i % length : Nat) : ℝ) / ((length : Nat) : ℝ)
      let batch_idx : Nat := i / length
      let freq : ℝ := 1 + (batch_idx : ℝ)
      let re : ℝ := Real.cos (2 * Real.pi * freq * t)
      data ++ [(re, 0)])
    []

/-- The input initialization of the CPU path, src/main.rs lines 36 to 44:
a map over the range of global indices. -/
noncomputable def cpuGenerateInput (batch length : Nat) : List (ℝ × ℝ) :=
  (List.range (batch * length)).map (fun i =>
    let t : ℝ := ((i % length : Nat) : ℝ) / ((length : Nat) : ℝ)
    let batch_idx : Nat := i / length
    let freq : ℝ := 1 + (batch_idx : ℝ)
    (Real.cos (2 * Real.pi * freq * t), 0))

/-- The sample value asserted by the specification for global index i:
real part the cosine of two pi times (1 + i div length) times
((i mod length) / length), imaginary part zero. -/
noncomputable def specSample (length i : Nat) : ℝ × ℝ :=
  (Real.cos (2 * Real.pi * (1 + ((i / length : Nat) : ℝ)) *
    (((i % length : Nat) : ℝ) / ((length : Nat) : ℝ))), 0)

/-! ## CPU batch FFT (src/main.rs lines 62 to 76)

The external transform library is an external collaborator; the in-place
transform applied to each chunk is therefore a parameter.  par_chunks_mut
of length splits the slice into consecutive length-sized chunks. -/

/-- Fuel-indexed chunking; called with fuel at least the list length it
peels off the first len elements repeatedly, as par_chunks_mut does. -/
def chunksFuel {α : Type} (len : Nat) : Nat → List α → List (List α)
  | _, [] => []
  | 0, _ :: _ => []
  | fuel + 1, x :: rest => (x :: rest).take len :: chunksFuel len fuel ((x :: rest).drop len)

/-- The chunk decomposition performed by par_chunks_mut(length). -/
def parChunks {α : Type} (len : Nat) (xs : List α) : List (List α) :=
  chunksFuel len xs.length xs

/-- perform_batch_fft from src/main.rs lines 62 to 76: plan one forward
transform of size length, then transform each consecutive length-sized
chunk of the data in place (each parallel unit touches only its own
chunk, so the parallel for-each is modelled as a map over the chunks).
The batch argument is bound but the body never uses it, exactly as in
the source (the Rust parameter is spelled with a leading underscore). -/
def perform_batch_fft {α : Type} (fft : List α → List α) (data : List α)
    ( _batch length : Nat) : List α :=
  ((parChunks length data).map fft).flatten

/-! ## Helper lemmas -/

/-- copy_from_host with matching lengths: the assertion passes, one
host-to-device copy is issued, and the status decides the outcome. -/
theorem copy_from_host_eq_len (n elemSize : Nat) (st : cudaError_t) :
    CudaBuffer.copy_from_host n n elemSize st =
      { calls := [.cudaMemcpyH2D (n * elemSize)],
        result := if st ≠ .cudaSuccess then .err st else .ok () } := by
  simp [CudaBuffer.copy_from_host]
  split <;> rfl

/-! ## Claim theorems -/

/-- Claim C1: for each owned resource wrapper (device buffer, timing
event, transform plan), the drop path issues exactly one release call for
the underlying foreign handle, emits a warning diagnostic exactly when
the release status is not the success discriminant, and always finishes
with the ok outcome: the failure is not propagated and no panic or
process termination occurs. -/
theorem claim1_drop_releases_once_warns_never_fails :
    ∀ (st₁ st₂ : cudaError_t) (st₃ : cufftResult),
      CudaBuffer.drop st₁ =
        ([.cudaFree],
         (if st₁ = .cudaSuccess then []
          else ["Warning: cudaFree failed: " ++ st₁.display]),
         .ok ())
      ∧ CudaEvent.drop st₂ =
        ([.cudaEventDestroy],
         (if st₂ = .cudaSuccess then []
          else ["Warning: cudaEventDestroy failed: " ++ st₂.display]),
         .ok ())
      ∧ CufftPlan.drop st₃ =
        ([.cufftDestroy],
         (if st₃ = .CUFFT_SUCCESS then []
          else ["Warning: cufftDestroy failed: " ++ st₃.display]),
         .ok ()) := by
  intro st₁ st₂ st₃
  refine ⟨?_, ?_, ?_⟩
  · cases st₁ <;> rfl
  · cases st₂ <;> rfl
  · cases st₃ <;> rfl

/-- Claim C8: on a run where every foreign call succeeds, the GPU driver
issues exactly this sequence: allocate, upload, plan construction, the
untimed warm-up execution (transform then device synchronize), the
re-upload of the original host data, creation of the two events, record
of the start event, the single timed execution, record of the stop event,
synchronization of the stop event, and only then the elapsed-time query;
in particular no upload happens before the warm-up execution beyond the
initial one, and the run completes with the ok outcome. -/
theorem claim8_driver_call_order :
    ∀ (batch length ptrOut : Nat) (planHandle : Int) (ev1 ev2 ms : Nat),
      mainDriver (successOracle ptrOut planHandle ev1 ev2 ms) batch length =
        { calls :=
            [.cudaMalloc (batch * length * 8),
             .cudaMemcpyH2D (batch * length * 8),
             .cufftPlanMany (newBatch1dArgs length batch),
             .cufftExec, .cudaDeviceSync,
             .cudaMemcpyH2D (batch * length * 8),
             .cudaEventCreate, .cudaEventCreate,
             .cudaEventRecord ev1,
             .cufftExec, .cudaDeviceSync,
             .cudaEventRecord ev2,
             .cudaEventSync ev2,
             .cudaEventElapsed ev1 ev2],
          result := .ok () } := by
  intro batch length ptrOut planHandle ev1 ev2 ms
  simp [mainDriver, successOracle, liftCuda, liftCufft, liftStr, bind,
    CudaBuffer.alloc, copy_from_host_eq_len, CufftPlan.new_batch_1d,
    CufftPlan.execute_forward, CudaEvent.create, CudaEvent.record,
    CudaEvent.synchronize, CudaEvent.elapsed_time, pure]

/-- Claim C4: execute_forward issues the device synchronization right
after the transform dispatch and before returning whenever the dispatch
was accepted, and returns success exactly when both the transform status
and the synchronization status are the success discriminants; a transform
failure produces an error naming the transform-library status (and skips
synchronization), and a synchronization failure produces an error naming
the runtime status. -/
theorem claim4_execute_forward_synchronizes_and_reports :
    ∀ ( bl : Nat) (es : cufftResult) (ss : cudaError_t),
      ((CufftPlan.execute_forward bl es ss).result = .ok () ↔
        (es = .CUFFT_SUCCESS ∧ ss = .cudaSuccess))
      ∧ (es = .CUFFT_SUCCESS →
          (CufftPlan.execute_forward bl es ss).calls = [.cufftExec, .cudaDeviceSync])
      ∧ (es ≠ .CUFFT_SUCCESS →
          CufftPlan.execute_forward bl es ss =
            { calls := [.cufftExec],
              result := .err ("cuFFT execution failed: " ++ es.display) })
      ∧ (es = .CUFFT_SUCCESS → ss ≠ .cudaSuccess →
          CufftPlan.execute_forward bl es ss =
            { calls := [.cufftExec, .cudaDeviceSync],
              result := .err ("CUDA synchronization failed: " ++ ss.display) }) := by
  intro bl es ss
  cases es <;> cases ss <;>
    simp [CufftPlan.execute_forward]

/-- Concrete instance of claim C4 at a failing transform status and a
failing synchronization status. -/
theorem claim4_witness :
    CufftPlan.execute_forward 640 .CUFFT_EXEC_FAILED .cudaSuccess =
      { calls := [.cufftExec],
        result := .err "cuFFT execution failed: CUFFT_EXEC_FAILED" }
    ∧ CufftPlan.execute_forward 640 .CUFFT_SUCCESS .cudaErrorInvalidValue =
      { calls := [.cufftExec, .cudaDeviceSync],
        result := .err "CUDA synchronization failed: cudaErrorInvalidValue" } := by
  refine ⟨?_, ?_⟩
  · exact (claim4_execute_forward_synchronizes_and_reports 640 .CUFFT_EXEC_FAILED
      .cudaSuccess).2.2.1 (by decide)
  · exact (claim4_execute_forward_synchronizes_and_reports 640 .CUFFT_SUCCESS
      .cudaErrorInvalidValue).2.2.2 rfl (by decide)

/-- Claim C5: every wrapper operation returns success exactly when the
foreign status it inspects equals the designated success discriminant (for
execute_forward, when both of its foreign statuses do), and on a
non-success status the operation short-circuits without reading the
values the foreign call writes through output pointers: the failing
result is independent of the written pointer, event handle, plan handle
and milliseconds values. -/
theorem claim5_success_iff_status_success :
    (∀ (len es p : Nat) (st : cudaError_t),
        ((CudaBuffer.alloc len es st p).result.isOk = true ↔ st = .cudaSuccess))
    ∧ (∀ (len es p q : Nat) (st : cudaError_t), st ≠ .cudaSuccess →
        CudaBuffer.alloc len es st p = CudaBuffer.alloc len es st q)
    ∧ (∀ (n es : Nat) (st : cudaError_t),
        ((CudaBuffer.copy_from_host n n es st).result.isOk = true ↔ st = .cudaSuccess))
    ∧ (∀ (h : Nat) (st : cudaError_t),
        ((CudaEvent.create st h).result.isOk = true ↔ st = .cudaSuccess))
    ∧ (∀ (h k : Nat) (st : cudaError_t), st ≠ .cudaSuccess →
        CudaEvent.create st h = CudaEvent.create st k)
    ∧ (∀ (ev : CudaEvent) (st : cudaError_t),
        ((ev.record st).result.isOk = true ↔ st = .cudaSuccess))
    ∧ (∀ (ev : CudaEvent) (st : cudaError_t),
        ((ev.synchronize st).result.isOk = true ↔ st = .cudaSuccess))
    ∧ (∀ (a b : CudaEvent) (st : cudaError_t) (ms : Nat),
        ((CudaEvent.elapsed_time a b st ms).result.isOk = true ↔ st = .cudaSuccess))
    ∧ (∀ (a b : CudaEvent) (st : cudaError_t) (ms₁ ms₂ : Nat), st ≠ .cudaSuccess →
        CudaEvent.elapsed_time a b st ms₁ = CudaEvent.elapsed_time a b st ms₂)
    ∧ (∀ (length batch : Nat) (st : cufftResult) (h : Int),
        ((CufftPlan.new_batch_1d length batch st h).result.isOk = true ↔
          st = .CUFFT_SUCCESS))
    ∧ (∀ (length batch : Nat) (st : cufftResult) (h k : Int), st ≠ .CUFFT_SUCCESS →
        CufftPlan.new_batch_1d length batch st h = CufftPlan.new_batch_1d length batch st k)
    ∧ (∀ ( bl : Nat) (es : cufftResult) (ss : cudaError_t),
        ((CufftPlan.execute_forward bl es ss).result.isOk = true ↔
          (es = .CUFFT_SUCCESS ∧ ss = .cudaSuccess))) := by
  refine ⟨?_, ?_, ?_, ?_, ?_, ?_, ?_, ?_, ?_, ?_, ?_, ?_⟩
  · intro len es p st
    cases st <;> simp [CudaBuffer.alloc, POutcome.isOk]
  · intro len es p q st hst
    cases st <;> simp_all [CudaBuffer.alloc]
  · intro n es st
    cases st <;> simp [copy_from_host_eq_len, POutcome.isOk]
  · intro h st
    cases st <;> simp [CudaEvent.create, POutcome.isOk]
  · intro h k st hst
    cases st <;> simp_all [CudaEvent.create]
  · intro ev st
    cases st <;> simp [CudaEvent.record, POutcome.isOk]
  · intro ev st
    cases st <;> simp [CudaEvent.synchronize, POutcome.isOk]
  · intro a b st ms
    cases st <;> simp [CudaEvent.elapsed_time, POutcome.isOk]
  · intro a b st ms₁ ms₂ hst
    cases st <;> simp_all [CudaEvent.elapsed_time]
  · intro length batch st h
    cases st <;> simp [CufftPlan.new_batch_1d, POutcome.isOk]
  · intro length batch st h k hst
    cases st <;> simp_all [CufftPlan.new_batch_1d]
  · intro bl es ss
    cases es <;> cases ss <;> simp [CufftPlan.execute_forward, POutcome.isOk]

/-- Concrete instance of claim C5: a failed allocation ignores the
written device pointer, and a failed elapsed-time query ignores the
written milliseconds value. -/
theorem claim5_witness :
    CudaBuffer.alloc 5 8 .cudaErrorMemoryAllocation 3 =
      CudaBuffer.alloc 5 8 .cudaErrorMemoryAllocation 99
    ∧ CudaEvent.elapsed_time ⟨1⟩ ⟨2⟩ .cudaErrorInvalidValue (7 : Nat) =
      CudaEvent.elapsed_time ⟨1⟩ ⟨2⟩ .cudaErrorInvalidValue (42 : Nat) := by
  obtain ⟨-, h₂, -, -, -, -, -, -, h₉, -, -, -⟩ := claim5_success_iff_status_success
  exact ⟨h₂ 5 8 3 99 .cudaErrorMemoryAllocation (by decide),
         h₉ ⟨1⟩ ⟨2⟩ .cudaErrorInvalidValue 7 42 (by decide)⟩

/-- Cast lemma: below 2 to the 31 the usize-to-i32 cast is the identity. -/
theorem i32cast_of_lt (n : Nat) (h : n < 2 ^ 31) : i32cast n = (n : Int) := by
  have h32 : n < 2 ^ 32 := h.trans (by norm_num)
  unfold i32cast
  rw [Nat.mod_eq_of_lt h32, if_pos h]

/-- Claim C6: new_batch_1d passes to the foreign planner exactly the
configuration for batch independent contiguous 1-D complex-to-complex
transforms of size length: rank 1, dimension array [length], null embed
arrays, input and output stride 1, input and output distance length
between consecutive transforms, type C2C and the given batch count.  The
bounds keep the usize-to-i32 casts of the source faithful. -/
theorem claim6_plan_parameters (length batch : Nat)
    (hl : length < 2 ^ 31) (hb : batch < 2 ^ 31) :
    newBatch1dArgs length batch =
      { rank := 1, n := [(length : Int)], inembed := none, istride := 1,
        idist := (length : Int), onembed := none, ostride := 1,
        odist := (length : Int), ttype := .CUFFT_C2C, batch := (batch : Int) } := by
  simp [newBatch1dArgs, i32cast_of_lt length hl, i32cast_of_lt batch hb]

/-- Concrete instance of claim C6 at length 64, batch 10 — the scenario
named in the specification. -/
theorem claim6_witness :
    (64 < 2 ^ 31 ∧ 10 < 2 ^ 31)
    ∧ newBatch1dArgs 64 10 =
      { rank := 1, n := [(64 : Int)], inembed := none, istride := 1,
        idist := (64 : Int), onembed := none, ostride := 1,
        odist := (64 : Int), ttype := .CUFFT_C2C, batch := (10 : Int) } :=
  ⟨by decide, claim6_plan_parameters 64 10 (by decide) (by decide)⟩

/-- Counterexample to claim C2: against a plan constructed for transform
length 4 and batch count 2, executing with a buffer of only 3 elements is
not rejected by the wrapper — the foreign transform call is the first
action issued and the execution completes with the ok outcome, so no
length check happens before the foreign boundary. -/
theorem claim2_counterexample :
    (3 : Nat) ≠ 4 * 2
    ∧ (CufftPlan.execute_forward 3 .CUFFT_SUCCESS .cudaSuccess).calls.head? =
        some .cufftExec
    ∧ (CufftPlan.execute_forward 3 .CUFFT_SUCCESS .cudaSuccess).result = .ok () := by
  decide

/-- Claim C2 as amended: execute_forward performs no length check — it
receives only the raw device pointer, its behavior is independent of the
element count of the buffer behind that pointer, and the foreign
transform call is always the first action it issues; in the sole call
site, the device buffer is allocated with exactly transform_length times
batch_count elements, so every execution in the program runs against a
matching buffer. -/
theorem claim2_amended_no_check_caller_matches :
    (∀ ( bl : Nat) (es : cufftResult) (ss : cudaError_t),
        (CufftPlan.execute_forward bl es ss).calls.head? = some .cufftExec
        ∧ CufftPlan.execute_forward bl es ss = CufftPlan.execute_forward 0 es ss)
    ∧ (∀ (batch length ptrOut : Nat) (planHandle : Int) (ev1 ev2 ms : Nat),
        (mainDriver (successOracle ptrOut planHandle ev1 ev2 ms) batch length).calls.head? =
          some (.cudaMalloc (length * batch * 8))) := by
  constructor
  · intro bl es ss
    refine ⟨?_, rfl⟩
    cases es <;> cases ss <;> simp [CufftPlan.execute_forward]
  · intro batch length ptrOut planHandle ev1 ev2 ms
    have hcomm : length * batch = batch * length := Nat.mul_comm length batch
    simp [mainDriver, successOracle, liftCuda, liftCufft, liftStr, bind,
      CudaBuffer.alloc, copy_from_host_eq_len, CufftPlan.new_batch_1d,
      CufftPlan.execute_forward, CudaEvent.create, CudaEvent.record,
      CudaEvent.synchronize, CudaEvent.elapsed_time, pure, hcomm]

/-- Counterexample to claim C3: uploading a 3-element host slice into a
4-element buffer does not return a local error value — the wrapper
panics on the failed assertion (terminating the process), issuing no
foreign call. -/
theorem claim3_counterexample :
    CudaBuffer.copy_from_host 4 3 8 .cudaSuccess =
      { calls := [], result := .panicked "Size mismatch" } := by
  decide

/-- Claim C3 as amended: a host slice whose length differs from the
buffer element count is rejected before any foreign call is issued, but
by an assertion failure (a panic, which terminates the process), not by
returning a distinct local error value to the caller. -/
theorem claim3_amended_mismatch_panics_before_ffi
    (bufLen hostLen elemSize : Nat) (st : cudaError_t) (h : hostLen ≠ bufLen) :
    CudaBuffer.copy_from_host bufLen hostLen elemSize st =
      { calls := [], result := .panicked "Size mismatch" } := by
  simp [CudaBuffer.copy_from_host, h]

/-- Concrete instance of amended claim C3 at buffer length 4, host length
3, with a distinct foreign status to show the status is never consulted. -/
theorem claim3_witness :
    (3 : Nat) ≠ 4
    ∧ CudaBuffer.copy_from_host 4 3 8 .cudaErrorInvalidValue =
      { calls := [], result := .panicked "Size mismatch" } :=
  ⟨by decide, claim3_amended_mismatch_panics_before_ffi 4 3 8 .cudaErrorInvalidValue (by decide)⟩

/-- Counterexample to claim C9: the transform-library status rendering
has no fallback arm — the raw code 10, which lies outside the ten known
discriminants, produces no rendering at all rather than a numeric
fallback. -/
theorem claim9_counterexample :
    cufftResultDisplayRaw 10 = none ∧ (cufftResultDisplayRaw 10).isSome = false := by
  decide

/-- Claim C9 as amended: both status renderings name every known
discriminant; the accelerator-runtime rendering additionally maps any raw
code outside its three known discriminants to the numeric fallback form,
while the transform-library rendering is exhaustive over its ten
discriminants and produces no rendering for a raw code outside them. -/
theorem claim9_amended_displays :
    (∀ e : cudaError_t, cudaErrorDisplayRaw e.toRaw = e.display)
    ∧ (∀ r : cufftResult, cufftResultDisplayRaw r.toRaw = some r.display)
    ∧ (∀ c : Int, c ∉ ([0, 1, 2] : List Int) →
        cudaErrorDisplayRaw c = "cudaError(" ++ toString c ++ ")")
    ∧ (∀ c : Int, c ∉ ([0, 1, 2, 3, 4, 5, 6, 7, 8, 9] : List Int) →
        cufftResultDisplayRaw c = none) := by
  refine ⟨?_, ?_, ?_, ?_⟩
  · intro e; cases e <;> rfl
  · intro r; cases r <;> rfl
  · intro c hc
    simp only [List.mem_cons, List.not_mem_nil, or_false, not_or] at hc
    obtain ⟨h0, h1, h2⟩ := hc
    simp [cudaErrorDisplayRaw, h0, h1, h2]
  · intro c hc
    simp only [List.mem_cons, List.not_mem_nil, or_false, not_or] at hc
    obtain ⟨h0, h1, h2, h3, h4, h5, h6, h7, h8, h9⟩ := hc
    simp [cufftResultDisplayRaw, h0, h1, h2, h3, h4, h5, h6, h7, h8, h9]

/-- Concrete instance of amended claim C9: the runtime rendering falls
back numerically at raw code 99, and the transform-library rendering has
nothing for raw code 42. -/
theorem claim9_witness :
    ((99 : Int) ∉ ([0, 1, 2] : List Int)
      ∧ cudaErrorDisplayRaw 99 = "cudaError(" ++ toString (99 : Int) ++ ")")
    ∧ ((42 : Int) ∉ ([0, 1, 2, 3, 4, 5, 6, 7, 8, 9] : List Int)
      ∧ cufftResultDisplayRaw 42 = none) :=
  ⟨⟨by decide, claim9_amended_displays.2.2.1 99 (by decide)⟩,
   ⟨by decide, claim9_amended_displays.2.2.2 42 (by decide)⟩⟩

/-- Folding a push of one element per index equals mapping over the
indices — relates the push loop of the GPU generator to its closed form. -/
theorem foldl_push_eq_map {α β : Type} (f : α → β) :
    ∀ (l : List α) (acc : List β),
      l.foldl (fun data i => data ++ [f i]) acc = acc ++ l.map f := by
  intro l
  induction l with
  | nil => intro acc; simp
  | cons x xs ih => intro acc; simp [ih]

/-- Claim C7: for every batch and length, both the GPU-path generator and
the CPU-path generator produce exactly batch times length samples, and
the sample at global index i is the specified one: real part the cosine
of two pi times (1 + i div length) times ((i mod length) / length),
imaginary part zero. -/
theorem claim7_input_samples :
    ∀ batch length : Nat,
      generate_input_data batch length =
        (List.range (batch * length)).map (specSample length)
      ∧ cpuGenerateInput batch length =
        (List.range (batch * length)).map (specSample length)
      ∧ (generate_input_data batch length).length = batch * length := by
  intro batch length
  have h1 : generate_input_data batch length =
      (List.range (batch * length)).map (specSample length) := by
    unfold generate_input_data
    exact (foldl_push_eq_map (specSample length) (List.range (batch * length)) []).trans
      (List.nil_append _)
  have h2 : cpuGenerateInput batch length =
      (List.range (batch * length)).map (specSample length) := rfl
  refine ⟨h1, h2, ?_⟩
  rw [h1, List.length_map, List.length_range]

/-- Chunking does not depend on the fuel, once the fuel covers the list
length. -/
theorem chunksFuel_fuel_irrel {α : Type} (len : Nat) (hlen : 0 < len) :
    ∀ (fuel₁ fuel₂ : Nat) (xs : List α), xs.length ≤ fuel₁ → xs.length ≤ fuel₂ →
      chunksFuel len fuel₁ xs = chunksFuel len fuel₂ xs := by
  intro fuel₁
  induction fuel₁ with
  | zero =>
    intro fuel₂ xs h1 h2
    have hxs : xs = [] := List.length_eq_zero.mp (Nat.le_zero.mp h1)
    subst hxs
    cases fuel₂ <;> rfl
  | succ m ih =>
    intro fuel₂ xs h1 h2
    cases xs with
    | nil => cases fuel₂ <;> rfl
    | cons x rest =>
      cases fuel₂ with
      | zero => simp at h2
      | succ k =>
        simp only [chunksFuel]
        congr 1
        apply ih
        · rw [List.length_drop]
          simp only [List.length_cons] at h1 ⊢
          omega
        · rw [List.length_drop]
          simp only [List.length_cons] at h2 ⊢
          omega

/-- Unfolding lemma: chunking a nonempty list peels off the first len
elements. -/
theorem parChunks_cons {α : Type} (len : Nat) (hlen : 0 < len) (x : α) (rest : List α) :
    parChunks len (x :: rest) =
      (x :: rest).take len :: parChunks len ((x :: rest).drop len) := by
  show chunksFuel len (x :: rest).length (x :: rest) = _
  rw [List.length_cons]
  simp only [chunksFuel]
  congr 1
  apply chunksFuel_fuel_irrel len hlen
  · rw [List.length_drop]
    simp only [List.length_cons]
    omega
  · exact Nat.le_refl _

/-- Chunkwise characterization of the CPU batch transform: on data of
length k times len, chunk i of the output is the transform of chunk i of
the input. -/
theorem perform_batch_fft_chunk {α : Type} (fft : List α → List α) (length : Nat)
    (hlen : 0 < length) (hf : ∀ l : List α, (fft l).length = l.length) :
    ∀ (k : Nat) (data : List α) (b : Nat), data.length = k * length →
      ∀ i : Nat, i < k →
        ((perform_batch_fft fft data b length).drop (i * length)).take length =
          fft ((data.drop (i * length)).take length) := by
  intro k
  induction k with
  | zero =>
    intro data b hdata i hi
    exact absurd hi (Nat.not_lt_zero i)
  | succ k ih =>
    intro data b hdata i hi
    have ha : data.length = k * length + length := by rw [hdata, Nat.succ_mul]
    have hpos : 0 < data.length := by
      rw [ha]
      exact Nat.lt_of_lt_of_le hlen (Nat.le_add_left length (k * length))
    have hne : data ≠ [] := List.length_pos.mp hpos
    have hchunks : parChunks length data =
        data.take length :: parChunks length (data.drop length) := by
      cases data with
      | nil => cases hne rfl
      | cons x rest => exact parChunks_cons length hlen x rest
    have htake : (data.take length).length = length := by
      rw [List.length_take, ha]
      exact Nat.min_eq_left (Nat.le_add_left _ _)
    have hflen : (fft (data.take length)).length = length := by rw [hf, htake]
    have hres : perform_batch_fft fft data b length =
        fft (data.take length) ++ perform_batch_fft fft (data.drop length) b length := by
      unfold perform_batch_fft
      rw [hchunks, List.map_cons, List.flatten_cons]
    have hdrop : (data.drop length).length = k * length := by
      rw [List.length_drop, ha, Nat.add_sub_cancel]
    cases i with
    | zero =>
      simp only [Nat.zero_mul, List.drop_zero]
      rw [hres]
      exact List.take_left' hflen
    | succ j =>
      have hj : j < k := Nat.lt_of_succ_lt_succ hi
      have harith : (j + 1) * length = length + j * length := by
        rw [Nat.succ_mul, Nat.add_comm]
      have hsplit := @List.drop_append α (fft (data.take length))
        (perform_batch_fft fft (data.drop length) b length) (j * length)
      rw [hflen] at hsplit
      have hd2 : data.drop (length + j * length) = (data.drop length).drop (j * length) :=
        (List.drop_drop (j * length) length data).symm
      rw [hres, harith, hsplit, hd2]
      exact ih (data.drop length) b hdrop j hj

/-- Claim C10: perform_batch_fft never reads its batch argument — for any
two batch values the result on the same data is identical — and on data
whose length is a multiple of length, each consecutive length-sized chunk
of the result is the in-place transform of that chunk of the original
data. -/
theorem claim10_batch_argument_unread :
    ∀ (α : Type) (fft : List α → List α) (data : List α) (b₁ b₂ length k : Nat),
      0 < length → data.length = k * length →
      (∀ l : List α, (fft l).length = l.length) →
      perform_batch_fft fft data b₁ length = perform_batch_fft fft data b₂ length
      ∧ ∀ i : Nat, i < k →
          ((perform_batch_fft fft data b₁ length).drop (i * length)).take length =
            fft ((data.drop (i * length)).take length) := by
  intro α fft data b₁ b₂ length k hlen hdata hf
  exact ⟨rfl, fun i hi => perform_batch_fft_chunk fft length hlen hf k data b₁ hdata i hi⟩

/-- Concrete instance of claim C10 with the reversal transform on four
elements split into two chunks of two, under two different batch
arguments. -/
theorem claim10_witness :
    perform_batch_fft List.reverse ([1, 2, 3, 4] : List Nat) 0 2 =
      perform_batch_fft List.reverse ([1, 2, 3, 4] : List Nat) 9 2
    ∧ ((perform_batch_fft List.reverse ([1, 2, 3, 4] : List Nat) 0 2).drop (1 * 2)).take 2 =
      List.reverse ((([1, 2, 3, 4] : List Nat).drop (1 * 2)).take 2) := by
  have h := claim10_batch_argument_unread Nat List.reverse [1, 2, 3, 4] 0 9 2 2
    (by decide) (by decide) (fun l => List.length_reverse l)
  exact ⟨h.1, h.2 1 (by decide)⟩

end BatchFFT
